import Mathlib

/-!
# Verification of the Spring Actuator checker core

Shallow embedding of `spring_actuator_checker.py`: the probe primitives
(`check_actuator_health`, `check_actuator_info`, `check_custom_api`), the
deployment aggregator (`check_deployment_status`) and the contract validator
(`validate_request_response_contract`), together with theorems settling the
spec claims about them.

The HTTP transport is abstracted as an `HttpOutcome` the environment supplies
to each probe call: either a transport error with its message (the
`requests.exceptions.RequestException` text) or a received response carrying a
status code, the raw body text, and the result of attempting to decode the
body as JSON.  Elapsed wall-clock time is likewise an environment-supplied
measurement.
-/

namespace SpringChecker

/-- JSON values as decoded by `response.json()`.  Numbers are modelled as
integers, which is all the claims need; `type(x).__name__` is `typeName`. -/
inductive Json where
  | null : Json
  | bool (b : Bool) : Json
  | num (n : Int) : Json
  | str (s : String) : Json
  | list (xs : List Json) : Json
  | dict (fields : List (String × Json)) : Json

/-- Python `type(x).__name__` for a decoded JSON value. -/
def typeName : Json → String
  | .null => "NoneType"
  | .bool _ => "bool"
  | .num _ => "int"
  | .str _ => "str"
  | .list _ => "list"
  | .dict _ => "dict"

/-- Python truthiness of a decoded JSON value (`bool(x)`). -/
def Json.truthy : Json → Bool
  | .null => false
  | .bool b => b
  | .num n => n != 0
  | .str s => !s.isEmpty
  | .list xs => !xs.isEmpty
  | .dict fields => !fields.isEmpty

/-- Python `x or d` for an optional body (`health_result.response_body or {}`):
`None` and falsy values fall through to the default. -/
def pyOr (x : Option Json) (d : Json) : Json :=
  match x with
  | some j => if j.truthy then j else d
  | none => d

/-- An HTTP response as the transport hands it back: protocol status code, raw
body text, and the outcome of decoding the body as JSON (`response.json()`),
either the decoded value or the `JSONDecodeError` message. -/
structure HttpResponse where
  status_code : Nat
  text : String
  jsonBody : Except String Json

/-- What the environment does when a probe issues its request: either a
transport-level failure with the exception text, or a received response.
`elapsed` is the wall-clock measurement the probe records (the code measures
from the same start point on both paths). -/
structure HttpOutcome where
  result : Except String HttpResponse
  elapsed : Int

/-- Embedding of the `APICheckResult` dataclass. -/
structure APICheckResult where
  endpoint : String
  method : String
  status_code : Nat
  response_time : Int
  success : Bool
  response_body : Option Json
  error_message : Option String

/-- Embedding of the `ModuleHealthStatus` dataclass. -/
structure ModuleHealthStatus where
  module_name : String
  overall_status : String
  actuator_health : Json
  api_checks : List APICheckResult
  deployment_status : String
  timestamp : Nat

/-- Constructor state of the checker: `base_url` (stored right-stripped of
`/`), timeout and TLS-verification flag. -/
structure SpringActuatorChecker where
  base_url : String
  timeout : Int
  verify_ssl : Bool

/-- Right-strip of a string, dropping trailing occurrences of one character
(Python `rstrip`), written over the character list so that it reduces on
concrete inputs. -/
def rstripChar (s : String) (ch : Char) : String :=
  String.mk ((s.data.reverse.dropWhile (fun x => x == ch)).reverse)

/-- Uppercasing of an ASCII string (Python `str.upper()` as applied to HTTP
verbs), written over the character list so that it reduces on concrete
inputs. -/
def pyUpper (s : String) : String :=
  String.mk (s.data.map Char.toUpper)

/-- Python `s.startswith(p)`, written over the character lists so that it
reduces on concrete inputs. -/
def pyStartsWith (s p : String) : Bool :=
  List.isPrefixOf p.data s.data

/-- Embedding of the constructor: `base_url` is stored right-stripped of slash
characters (`rstrip`). -/
def SpringActuatorChecker.init (base_url : String) (timeout : Int)
    (verify_ssl : Bool) : SpringActuatorChecker :=
  { base_url := rstripChar base_url '/', timeout := timeout,
    verify_ssl := verify_ssl }

/-- Embedding of `check_actuator_health`: GET on the fixed health path.
`success = (status == 200)`; `response_body = response.json() if success else
None`; `error_message = None if success else "HTTP <code>: <text>"`.  When
`success` holds but the body fails to decode, `response.json()` raises a
`JSONDecodeError`; under requests >= 2.27 that is a subclass of
`RequestException`, so control reaches the transport-failure handler, which
returns `status_code=0`, `success=False` and the exception text. -/
def check_actuator_health (c : SpringActuatorChecker) (env : HttpOutcome) :
    APICheckResult :=
  let endpoint := c.base_url ++ "/actuator/health"
  match env.result with
  | .error e =>
      { endpoint := endpoint, method := "GET", status_code := 0,
        response_time := env.elapsed, success := false,
        response_body := none, error_message := some e }
  | .ok response =>
      let success := response.status_code == 200
      if success then
        match response.jsonBody with
        | .ok j =>
            { endpoint := endpoint, method := "GET",
              status_code := response.status_code, response_time := env.elapsed,
              success := true, response_body := some j, error_message := none }
        | .error e =>
            { endpoint := endpoint, method := "GET", status_code := 0,
              response_time := env.elapsed, success := false,
              response_body := none, error_message := some e }
      else
        { endpoint := endpoint, method := "GET",
          status_code := response.status_code, response_time := env.elapsed,
          success := false, response_body := none,
          error_message := some ("HTTP " ++ toString response.status_code
            ++ ": " ++ response.text) }

/-- Embedding of `check_actuator_info`: identical to the health probe except for the fixed
path `"/actuator/info"` (the source duplicates the logic). -/
def check_actuator_info (c : SpringActuatorChecker) (env : HttpOutcome) :
    APICheckResult :=
  let endpoint := c.base_url ++ "/actuator/info"
  match env.result with
  | .error e =>
      { endpoint := endpoint, method := "GET", status_code := 0,
        response_time := env.elapsed, success := false,
        response_body := none, error_message := some e }
  | .ok response =>
      let success := response.status_code == 200
      if success then
        match response.jsonBody with
        | .ok j =>
            { endpoint := endpoint, method := "GET",
              status_code := response.status_code, response_time := env.elapsed,
              success := true, response_body := some j, error_message := none }
        | .error e =>
            { endpoint := endpoint, method := "GET", status_code := 0,
              response_time := env.elapsed, success := false,
              response_body := none, error_message := some e }
      else
        { endpoint := endpoint, method := "GET",
          status_code := response.status_code, response_time := env.elapsed,
          success := false, response_body := none,
          error_message := some ("HTTP " ++ toString response.status_code
            ++ ": " ++ response.text) }

/-- Embedding of `check_custom_api`, the general probe.  `full_url` is the endpoint itself
when it starts with the literal prefix `"http"`, otherwise
`base_url + endpoint` with no separator.  On a received response,
`success = (status == expected_status)`, the body decode is attempted under
its own `try/except json.JSONDecodeError` (decode failure leaves
`response_body=None` and is not a probe failure), and on mismatch
`error_message = "Expected <expected>, got <actual>"`.  `headers` and
`json_data` shape the outgoing request only; the `HttpOutcome` of the environment
already reflects whatever response they elicited. -/
def check_custom_api (c : SpringActuatorChecker) (endpoint : String)
    (method : String) (headers : List (String × String))
    (json_data : Option Json) (expected_status : Nat) (env : HttpOutcome) :
    APICheckResult :=
  let full_url :=
    if !pyStartsWith endpoint "http" then c.base_url ++ endpoint else endpoint
  match env.result with
  | .error e =>
      { endpoint := full_url, method := pyUpper method, status_code := 0,
        response_time := env.elapsed, success := false,
        response_body := none, error_message := some e }
  | .ok response =>
      let success := response.status_code == expected_status
      let response_body := response.jsonBody.toOption
      { endpoint := full_url, method := pyUpper method,
        status_code := response.status_code, response_time := env.elapsed,
        success := success, response_body := response_body,
        error_message :=
          if success then none
          else some ("Expected " ++ toString expected_status ++ ", got "
            ++ toString response.status_code) }

/-- Embedding of `check_deployment_status`: runs the health probe then the info probe,
initializes `deployment_status = "UNKNOWN"`, then overwrites it by the
if/elif/else, and assembles the `ModuleHealthStatus` (with
`actuator_health = health_result.response_body or {}`). -/
def check_deployment_status (c : SpringActuatorChecker) (module_name : String)
    (healthEnv infoEnv : HttpOutcome) (now : Nat) : ModuleHealthStatus :=
  let health_result := check_actuator_health c healthEnv
  let info_result := check_actuator_info c infoEnv
  let deployment_status := "UNKNOWN"
  let deployment_status :=
    if health_result.success && info_result.success then "HEALTHY"
    else if health_result.success then "DEGRADED"
    else "DOWN"
  { module_name := module_name, overall_status := deployment_status,
    actuator_health := pyOr health_result.response_body (Json.dict []),
    api_checks := [health_result, info_result],
    deployment_status := deployment_status, timestamp := now }

/-- Embedding of the dictionary `validate_request_response_contract` returns.
The two validation-detail maps exist as extension points and stay empty. -/
structure ContractResult where
  endpoint : String
  method : String
  contract_valid : Bool
  request_validation : List (String × Json)
  response_validation : List (String × Json)
  errors : List String

/-- Python `key in container` for a string key against a decoded JSON value
(`if key not in response_body`).  Dicts test key membership, lists test
element equality (a `str` key only ever equals a `str` element), strings test
substring containment; the remaining types raise `TypeError`. -/
def pyContains (container : Json) (key : String) : Except String Bool :=
  match container with
  | .dict fields => .ok (fields.any (fun kv => kv.1 == key))
  | .list xs => .ok (xs.any (fun j =>
      match j with
      | .str s => s == key
      | _ => false))
  | .str s => .ok (decide (List.IsInfix key.data s.data))
  | .null => .error "TypeError-NoneType-not-iterable"
  | .bool _ => .error "TypeError-bool-not-iterable"
  | .num _ => .error "TypeError-int-not-iterable"

/-- Python `container[key]` for a string key (`response_body[key]`).  Only a
dict supports string subscripts; the validator reaches this only after a
successful membership test, so the `KeyError` arm is unreachable there. -/
def pyIndex (container : Json) (key : String) : Except String Json :=
  match container with
  | .dict fields =>
      match fields.find? (fun kv => kv.1 == key) with
      | some kv => .ok kv.2
      | none => .error ("KeyError: " ++ key)
  | .str _ => .error "TypeError-str-not-subscriptable-by-str"
  | .list _ => .error "TypeError-list-not-subscriptable-by-str"
  | .null => .error "TypeError-NoneType-not-subscriptable"
  | .bool _ => .error "TypeError-bool-not-subscriptable"
  | .num _ => .error "TypeError-int-not-subscriptable"

/-- The `for key, expected_type in expected_response_schema.items()` loop of
`validate_request_response_contract`, appending to the accumulated `errors`
list; a `TypeError` from the membership test or the subscript propagates as an
uncaught exception. -/
def contractFieldErrors (response_body : Json) :
    List (String × String) → List String → Except String (List String)
  | [], errs => .ok errs
  | (key, expected_type) :: rest, errs =>
      match pyContains response_body key with
      | .error e => .error e
      | .ok mem =>
          if !mem then
            contractFieldErrors response_body rest
              (errs ++ ["Missing expected field: " ++ key])
          else
            match pyIndex response_body key with
            | .error e => .error e
            | .ok v =>
                let actual_type := typeName v
                if actual_type != expected_type then
                  contractFieldErrors response_body rest
                    (errs ++ ["Type mismatch for " ++ key ++ ": expected "
                      ++ expected_type ++ ", got " ++ actual_type])
                else
                  contractFieldErrors response_body rest errs

/-- Python truthiness of the optional schema dict
(`if expected_response_schema:`): `None` and `{}` are falsy. -/
def schemaTruthy : Option (List (String × String)) → Bool
  | none => false
  | some l => !l.isEmpty

/-- Rendering of an optional value inside an f-string
(the probe error message interpolated after "API call failed: "): `None`
prints as "None". -/
def fstringOpt : Option String → String
  | some s => s
  | none => "None"

/-- The `Optional[Dict]` body as the object the field loop runs against: Python `None`
behaves exactly like a decoded JSON `null` under `in` and `[]`. -/
def bodyObject : Option Json → Json
  | some j => j
  | none => Json.null

/-- Embedding of `validate_request_response_contract`: probes the endpoint via
`check_custom_api` (expected status 200), short-circuits with
`"API call failed: ..."` when the probe did not succeed, otherwise runs the
schema field loop when the schema is truthy, and finally sets
`contract_valid = (errors is empty)`.  A `TypeError` raised by the field loop
(e.g. when `response_body` is `None`) escapes to the caller as `.error`. -/
def validate_request_response_contract (c : SpringActuatorChecker)
    (endpoint : String) (method : String) (request_data : Option Json)
    (expected_response_schema : Option (List (String × String)))
    (headers : List (String × String)) (env : HttpOutcome) :
    Except String ContractResult :=
  let api_result := check_custom_api c endpoint method headers request_data 200 env
  let contract_result : ContractResult :=
    { endpoint := endpoint, method := method, contract_valid := false,
      request_validation := [], response_validation := [], errors := [] }
  if !api_result.success then
    .ok { contract_result with
      errors := contract_result.errors
        ++ ["API call failed: " ++ fstringOpt api_result.error_message] }
  else
    let loopOutcome :=
      if schemaTruthy expected_response_schema then
        contractFieldErrors (bodyObject api_result.response_body)
          (expected_response_schema.getD []) contract_result.errors
      else
        .ok contract_result.errors
    match loopOutcome with
    | .error e => .error e
    | .ok errs =>
        .ok { contract_result with
              errors := errs
              contract_valid := errs.isEmpty }

/-! ## Concrete fixtures used by witnesses and counterexamples -/

/-- A checker as the tests build it: base URL with a trailing slash stripped
by the constructor. -/
def wChecker : SpringActuatorChecker :=
  SpringActuatorChecker.init "https://test-app.com/" 30 true

/-- Response: HTTP 200 whose body decodes to a small status object. -/
def respOk200 : HttpResponse where
  status_code := 200
  text := "status-UP"
  jsonBody := .ok (Json.dict [("status", Json.str "UP")])

/-- Response: HTTP 503 whose body is not decodable JSON. -/
def respRecv503 : HttpResponse where
  status_code := 503
  text := "Service Unavailable"
  jsonBody := .error "Expecting value: line 1 column 1 (char 0)"

/-- Response: HTTP 503 whose body is valid JSON. -/
def respJson503 : HttpResponse where
  status_code := 503
  text := "status-DOWN"
  jsonBody := .ok (Json.dict [("status", Json.str "DOWN")])

/-- Response: HTTP 200 whose body is HTML, not decodable JSON. -/
def respHtml200 : HttpResponse where
  status_code := 200
  text := "html-not-json"
  jsonBody := .error "Expecting value: line 1 column 1 (char 0)"

/-- Response: HTTP 201 whose body decodes to a number. -/
def respNum201 : HttpResponse where
  status_code := 201
  text := "five"
  jsonBody := .ok (Json.num 5)

/-- Response: HTTP 200 whose body decodes to a list-and-count object. -/
def respUsers200 : HttpResponse where
  status_code := 200
  text := "users-and-count"
  jsonBody := .ok (Json.dict
    [("users", Json.list [Json.num 1]), ("totalCount", Json.num 2)])

/-- Response: HTTP 200 whose body decodes to an object missing the count
field. -/
def respUsersOnly200 : HttpResponse where
  status_code := 200
  text := "users-only"
  jsonBody := .ok (Json.dict [("users", Json.list [Json.num 1])])

/-- Environment delivering `respOk200`. -/
def envOk200 : HttpOutcome where
  result := .ok respOk200
  elapsed := 1

/-- Environment delivering `respRecv503`. -/
def envRecv503 : HttpOutcome where
  result := .ok respRecv503
  elapsed := 1

/-- Environment delivering `respJson503`. -/
def envJson503 : HttpOutcome where
  result := .ok respJson503
  elapsed := 2

/-- Environment: transport-level failure before any response. -/
def envTransportFail : HttpOutcome where
  result := .error "Connection refused"
  elapsed := 3

/-- Environment delivering `respHtml200`. -/
def envHtml200 : HttpOutcome where
  result := .ok respHtml200
  elapsed := 1

/-- Environment delivering `respNum201`. -/
def envNum201 : HttpOutcome where
  result := .ok respNum201
  elapsed := 1

/-- Environment delivering `respUsers200`. -/
def envUsers200 : HttpOutcome where
  result := .ok respUsers200
  elapsed := 1

/-- Environment delivering `respUsersOnly200`. -/
def envUsersOnly200 : HttpOutcome where
  result := .ok respUsersOnly200
  elapsed := 1

/-! ## Claim theorems -/

/-- C1: for every pair of probe outcomes, the derived `deployment_status` of
`check_deployment_status` is HEALTHY if both the health and the info probe
succeeded, DEGRADED if the health probe succeeded and the info probe did not,
and DOWN whenever the health probe failed, regardless of the info probe. -/
theorem deployment_status_truth_table (c : SpringActuatorChecker)
    (name : String) (e1 e2 : HttpOutcome) (now : Nat) :
    ((check_actuator_health c e1).success = true →
        (check_actuator_info c e2).success = true →
        (check_deployment_status c name e1 e2 now).deployment_status
          = "HEALTHY") ∧
    ((check_actuator_health c e1).success = true →
        (check_actuator_info c e2).success = false →
        (check_deployment_status c name e1 e2 now).deployment_status
          = "DEGRADED") ∧
    ((check_actuator_health c e1).success = false →
        (check_deployment_status c name e1 e2 now).deployment_status
          = "DOWN") := by
  refine ⟨fun h1 h2 => ?_, fun h1 h2 => ?_, fun h1 => ?_⟩
  · simp [check_deployment_status, h1, h2]
  · simp [check_deployment_status, h1, h2]
  · simp [check_deployment_status, h1]

/-- Witness for C1: a concrete healthy health probe and a failing info probe
produce the DEGRADED verdict. -/
theorem deployment_status_truth_table_witness :
    (check_actuator_health wChecker envOk200).success = true ∧
    (check_actuator_info wChecker envRecv503).success = false ∧
    (check_deployment_status wChecker "test-module" envOk200 envRecv503
      7).deployment_status = "DEGRADED" :=
  ⟨rfl, rfl,
    (deployment_status_truth_table wChecker "test-module" envOk200 envRecv503
      7).2.1 rfl rfl⟩

/-- C9: the UNKNOWN status is unreachable at the public interface: both
`deployment_status` and `overall_status` of every
`check_deployment_status` result are one of HEALTHY, DEGRADED, DOWN; the
UNKNOWN initial value is overwritten on every path. -/
theorem unknown_status_unreachable (c : SpringActuatorChecker)
    (name : String) (e1 e2 : HttpOutcome) (now : Nat) :
    ((check_deployment_status c name e1 e2 now).deployment_status = "HEALTHY" ∨
      (check_deployment_status c name e1 e2 now).deployment_status = "DEGRADED" ∨
      (check_deployment_status c name e1 e2 now).deployment_status = "DOWN") ∧
    (check_deployment_status c name e1 e2 now).overall_status
      = (check_deployment_status c name e1 e2 now).deployment_status := by
  constructor
  · cases h1 : (check_actuator_health c e1).success <;>
      cases h2 : (check_actuator_info c e2).success <;>
        simp [check_deployment_status, h1, h2]
  · rfl

/-- C10: the fully-qualified-URL test of the general probe is the literal
string prefix "http": an endpoint starting with those four characters is used
verbatim as the target URL, every other endpoint is concatenated directly
after the base URL with no separator. -/
theorem endpoint_url_construction (c : SpringActuatorChecker)
    (endpoint method : String) (headers : List (String × String))
    (json_data : Option Json) (expected_status : Nat) (env : HttpOutcome) :
    (pyStartsWith endpoint "http" = true →
      (check_custom_api c endpoint method headers json_data expected_status
        env).endpoint = endpoint) ∧
    (pyStartsWith endpoint "http" = false →
      (check_custom_api c endpoint method headers json_data expected_status
        env).endpoint = c.base_url ++ endpoint) := by
  constructor <;> intro h <;> cases hr : env.result <;>
    simp [check_custom_api, hr, h]

/-- Witness for C10: the relative-looking endpoint "httpdocs/x" starts with
"http" and is used verbatim, while "/api/users" is glued directly after the
base URL. -/
theorem endpoint_url_construction_witness :
    (pyStartsWith "httpdocs/x" "http" = true ∧
      (check_custom_api wChecker "httpdocs/x" "GET" [] none 200
        envTransportFail).endpoint = "httpdocs/x") ∧
    (pyStartsWith "/api/users" "http" = false ∧
      (check_custom_api wChecker "/api/users" "GET" [] none 200
        envTransportFail).endpoint = wChecker.base_url ++ "/api/users") :=
  ⟨⟨rfl,
      (endpoint_url_construction wChecker "httpdocs/x" "GET" [] none 200
        envTransportFail).1 rfl⟩,
    ⟨rfl,
      (endpoint_url_construction wChecker "/api/users" "GET" [] none 200
        envTransportFail).2 rfl⟩⟩

/-- Counterexample for C3: a health probe receives HTTP 503 whose body is
valid JSON, yet the returned `response_body` is `none` — presence of the body
is not independent of `success` for the fixed-path probes. -/
theorem fixed_probe_drops_json_body_cex :
    envJson503.result = .ok respJson503 ∧
    respJson503.jsonBody = .ok (Json.dict [("status", Json.str "DOWN")]) ∧
    (check_actuator_health wChecker envJson503).response_body = none :=
  ⟨rfl, rfl, rfl⟩

/-- C3 amended: for the general custom probe, `response_body` is present
exactly when the body decoded as JSON, independent of `success`; the
fixed-path health and info probes attach the body only on a 200 response —
any received non-200 response yields `response_body = none` even when the
body is valid JSON. -/
theorem response_body_presence_amended (c : SpringActuatorChecker)
    (endpoint method : String) (headers : List (String × String))
    (json_data : Option Json) (expected_status : Nat) (env : HttpOutcome)
    (r : HttpResponse) :
    (env.result = .ok r →
      (check_custom_api c endpoint method headers json_data expected_status
        env).response_body = r.jsonBody.toOption) ∧
    (env.result = .ok r → r.status_code ≠ 200 →
      (check_actuator_health c env).response_body = none ∧
      (check_actuator_info c env).response_body = none) := by
  constructor
  · intro h
    simp [check_custom_api, h]
  · intro h hne
    have hs : (r.status_code == 200) = false := by simp [hne]
    exact ⟨by simp [check_actuator_health, h, hs],
           by simp [check_actuator_info, h, hs]⟩

/-- Witness for C3 amended: on a received 503 with decodable JSON body, the
custom probe keeps the decoded body while both fixed probes return none. -/
theorem response_body_presence_amended_witness :
    envJson503.result = .ok respJson503 ∧ (503 : Nat) ≠ 200 ∧
    (check_custom_api wChecker "/api/z" "GET" [] none 200
        envJson503).response_body
      = some (Json.dict [("status", Json.str "DOWN")]) ∧
    (check_actuator_health wChecker envJson503).response_body = none ∧
    (check_actuator_info wChecker envJson503).response_body = none := by
  refine ⟨rfl, by decide, ?_, ?_, ?_⟩
  · exact (response_body_presence_amended wChecker "/api/z" "GET" [] none 200
      envJson503 respJson503).1 rfl
  · exact ((response_body_presence_amended wChecker "/api/z" "GET" [] none 200
      envJson503 respJson503).2 rfl (by decide)).1
  · exact ((response_body_presence_amended wChecker "/api/z" "GET" [] none 200
      envJson503 respJson503).2 rfl (by decide)).2

/-- Counterexample for C4: a health probe receives HTTP 200 (the expected
status) with a non-JSON body, yet the result has `success = false` and the
sentinel status code 0 — the decode failure is treated as a probe failure,
not as `success = true` with a missing body. -/
theorem fixed_probe_decode_failure_cex :
    respHtml200.status_code = 200 ∧
    respHtml200.jsonBody
      = .error "Expecting value: line 1 column 1 (char 0)" ∧
    (check_actuator_health wChecker envHtml200).success = false ∧
    (check_actuator_health wChecker envHtml200).status_code = 0 :=
  ⟨rfl, rfl, rfl, rfl⟩

/-- C4 amended: for the general custom probe, a received response with the
expected status and a non-decodable body yields `success = true`,
`response_body = none` and no error message; for the fixed-path probes a 200
response with a non-decodable body takes the exception-handler path (under
requests at least 2.27, where the JSON decode error is a RequestException),
yielding `success = false`, `status_code = 0` and the decode error text. -/
theorem decode_failure_handling_amended (c : SpringActuatorChecker)
    (endpoint method : String) (headers : List (String × String))
    (json_data : Option Json) (expected_status : Nat)
    (env env2 env3 : HttpOutcome) (r r2 r3 : HttpResponse)
    (e e2 e3 : String) :
    (env.result = .ok r → r.jsonBody = .error e →
      r.status_code = expected_status →
      (check_custom_api c endpoint method headers json_data expected_status
        env).success = true ∧
      (check_custom_api c endpoint method headers json_data expected_status
        env).response_body = none ∧
      (check_custom_api c endpoint method headers json_data expected_status
        env).error_message = none) ∧
    (env2.result = .ok r2 → r2.jsonBody = .error e2 → r2.status_code = 200 →
      (check_actuator_health c env2).success = false ∧
      (check_actuator_health c env2).status_code = 0 ∧
      (check_actuator_health c env2).error_message = some e2) ∧
    (env3.result = .ok r3 → r3.jsonBody = .error e3 → r3.status_code = 200 →
      (check_actuator_info c env3).success = false ∧
      (check_actuator_info c env3).status_code = 0 ∧
      (check_actuator_info c env3).error_message = some e3) := by
  refine ⟨fun h hj hs => ?_, fun h hj hs => ?_, fun h hj hs => ?_⟩
  · have hb : (r.status_code == expected_status) = true := by simp [hs]
    exact ⟨by simp [check_custom_api, h, hj, hb],
           by simp [check_custom_api, h, hj, hb, Except.toOption],
           by simp [check_custom_api, h, hj, hb]⟩
  · have hb : (r2.status_code == 200) = true := by simp [hs]
    exact ⟨by simp [check_actuator_health, h, hj, hb],
           by simp [check_actuator_health, h, hj, hb],
           by simp [check_actuator_health, h, hj, hb]⟩
  · have hb : (r3.status_code == 200) = true := by simp [hs]
    exact ⟨by simp [check_actuator_info, h, hj, hb],
           by simp [check_actuator_info, h, hj, hb],
           by simp [check_actuator_info, h, hj, hb]⟩

/-- Witness for C4 amended: the HTML 200 response, run through the custom
probe and both fixed probes. -/
theorem decode_failure_handling_amended_witness :
    envHtml200.result = .ok respHtml200 ∧
    respHtml200.jsonBody
      = .error "Expecting value: line 1 column 1 (char 0)" ∧
    respHtml200.status_code = 200 ∧
    (check_custom_api wChecker "/api/html-endpoint" "GET" [] none 200
        envHtml200).success = true ∧
    (check_custom_api wChecker "/api/html-endpoint" "GET" [] none 200
        envHtml200).response_body = none ∧
    (check_actuator_health wChecker envHtml200).success = false ∧
    (check_actuator_info wChecker envHtml200).success = false ∧
    (check_actuator_info wChecker envHtml200).status_code = 0 := by
  refine ⟨rfl, rfl, rfl, ?_, ?_, ?_, ?_, ?_⟩
  · exact ((decode_failure_handling_amended wChecker "/api/html-endpoint" "GET"
      [] none 200 envHtml200 envHtml200 envHtml200 respHtml200 respHtml200
      respHtml200 "Expecting value: line 1 column 1 (char 0)"
      "Expecting value: line 1 column 1 (char 0)"
      "Expecting value: line 1 column 1 (char 0)").1 rfl rfl rfl).1
  · exact ((decode_failure_handling_amended wChecker "/api/html-endpoint" "GET"
      [] none 200 envHtml200 envHtml200 envHtml200 respHtml200 respHtml200
      respHtml200 "Expecting value: line 1 column 1 (char 0)"
      "Expecting value: line 1 column 1 (char 0)"
      "Expecting value: line 1 column 1 (char 0)").1 rfl rfl rfl).2.1
  · exact ((decode_failure_handling_amended wChecker "/api/html-endpoint" "GET"
      [] none 200 envHtml200 envHtml200 envHtml200 respHtml200 respHtml200
      respHtml200 "Expecting value: line 1 column 1 (char 0)"
      "Expecting value: line 1 column 1 (char 0)"
      "Expecting value: line 1 column 1 (char 0)").2.1 rfl rfl rfl).1
  · exact ((decode_failure_handling_amended wChecker "/api/html-endpoint" "GET"
      [] none 200 envHtml200 envHtml200 envHtml200 respHtml200 respHtml200
      respHtml200 "Expecting value: line 1 column 1 (char 0)"
      "Expecting value: line 1 column 1 (char 0)"
      "Expecting value: line 1 column 1 (char 0)").2.2 rfl rfl rfl).1
  · exact ((decode_failure_handling_amended wChecker "/api/html-endpoint" "GET"
      [] none 200 envHtml200 envHtml200 envHtml200 respHtml200 respHtml200
      respHtml200 "Expecting value: line 1 column 1 (char 0)"
      "Expecting value: line 1 column 1 (char 0)"
      "Expecting value: line 1 column 1 (char 0)").2.2 rfl rfl rfl).2.1

/-- C6: a fixed-path probe that receives a non-200 response sets
`error_message` to exactly "HTTP <code>: <raw response text>", while the
general custom probe on a received status differing from the expected status
sets exactly "Expected <expected>, got <actual>" — two distinct,
reproducible shapes. -/
theorem probe_error_message_shapes (c : SpringActuatorChecker)
    (env env2 env3 : HttpOutcome) (r r2 r3 : HttpResponse)
    (endpoint method : String) (headers : List (String × String))
    (json_data : Option Json) (expected_status : Nat) :
    (env.result = .ok r → r.status_code ≠ 200 →
      (check_actuator_health c env).error_message
        = some ("HTTP " ++ toString r.status_code ++ ": " ++ r.text)) ∧
    (env2.result = .ok r2 → r2.status_code ≠ 200 →
      (check_actuator_info c env2).error_message
        = some ("HTTP " ++ toString r2.status_code ++ ": " ++ r2.text)) ∧
    (env3.result = .ok r3 → r3.status_code ≠ expected_status →
      (check_custom_api c endpoint method headers json_data expected_status
        env3).error_message
        = some ("Expected " ++ toString expected_status ++ ", got "
            ++ toString r3.status_code)) := by
  refine ⟨fun h hne => ?_, fun h hne => ?_, fun h hne => ?_⟩
  · have hs : (r.status_code == 200) = false := by simp [hne]
    simp [check_actuator_health, h, hs]
  · have hs : (r2.status_code == 200) = false := by simp [hne]
    simp [check_actuator_info, h, hs]
  · have hs : (r3.status_code == expected_status) = false := by simp [hne]
    simp [check_custom_api, h, hs]

/-- Witness for C6: a 503 received by the health probe, by the info probe and
by the custom probe expecting 200 produces the two distinct message shapes. -/
theorem probe_error_message_shapes_witness :
    envRecv503.result = .ok respRecv503 ∧ (503 : Nat) ≠ 200 ∧
    (check_actuator_health wChecker envRecv503).error_message
      = some "HTTP 503: Service Unavailable" ∧
    (check_actuator_info wChecker envRecv503).error_message
      = some "HTTP 503: Service Unavailable" ∧
    (check_custom_api wChecker "/api/a" "GET" [] none 200
        envRecv503).error_message = some "Expected 200, got 503" := by
  refine ⟨rfl, by decide, ?_, ?_, ?_⟩
  · exact (probe_error_message_shapes wChecker envRecv503 envRecv503
      envRecv503 respRecv503 respRecv503 respRecv503 "/api/a" "GET" [] none
      200).1 rfl (by decide)
  · exact (probe_error_message_shapes wChecker envRecv503 envRecv503
      envRecv503 respRecv503 respRecv503 respRecv503 "/api/a" "GET" [] none
      200).2.1 rfl (by decide)
  · exact (probe_error_message_shapes wChecker envRecv503 envRecv503
      envRecv503 respRecv503 respRecv503 respRecv503 "/api/a" "GET" [] none
      200).2.2 rfl (by decide)

/-- Counterexample for C7: the info probe receives a 503 whose body decodes
as JSON, and `error_message` is not left unset: it is set to the
"HTTP <code>: <text>" string. -/
theorem fixed_probe_error_message_set_cex :
    envJson503.result = .ok respJson503 ∧
    respJson503.jsonBody = .ok (Json.dict [("status", Json.str "DOWN")]) ∧
    (check_actuator_info wChecker envJson503).success = false ∧
    (check_actuator_info wChecker envJson503).error_message ≠ none ∧
    (check_actuator_info wChecker envJson503).error_message
      = some "HTTP 503: status-DOWN" :=
  ⟨rfl, rfl, rfl, by decide, by decide⟩

/-- C7 amended: when a response is received and `success` is false, the two
fixed-endpoint variants set `error_message` to "HTTP <code>: <raw text>"
(they never even decode the body on that path), while the general
custom-endpoint variant sets it to "Expected <expected>, got <actual>". -/
theorem error_message_setting_amended (c : SpringActuatorChecker)
    (env env2 env3 : HttpOutcome) (r r2 r3 : HttpResponse) (j j2 : Json)
    (endpoint method : String) (headers : List (String × String))
    (json_data : Option Json) (expected_status : Nat) :
    (env.result = .ok r → r.status_code ≠ 200 → r.jsonBody = .ok j →
      (check_actuator_health c env).error_message
        = some ("HTTP " ++ toString r.status_code ++ ": " ++ r.text)) ∧
    (env2.result = .ok r2 → r2.status_code ≠ 200 → r2.jsonBody = .ok j2 →
      (check_actuator_info c env2).error_message
        = some ("HTTP " ++ toString r2.status_code ++ ": " ++ r2.text)) ∧
    (env3.result = .ok r3 → r3.status_code ≠ expected_status →
      (check_custom_api c endpoint method headers json_data expected_status
        env3).error_message
        = some ("Expected " ++ toString expected_status ++ ", got "
            ++ toString r3.status_code)) := by
  refine ⟨fun h hne _ => ?_, fun h hne _ => ?_, fun h hne => ?_⟩
  · have hs : (r.status_code == 200) = false := by simp [hne]
    simp [check_actuator_health, h, hs]
  · have hs : (r2.status_code == 200) = false := by simp [hne]
    simp [check_actuator_info, h, hs]
  · have hs : (r3.status_code == expected_status) = false := by simp [hne]
    simp [check_custom_api, h, hs]

/-- Witness for C7 amended: the JSON-bodied 503 run through health, info and
custom probes. -/
theorem error_message_setting_amended_witness :
    envJson503.result = .ok respJson503 ∧ (503 : Nat) ≠ 200 ∧
    respJson503.jsonBody = .ok (Json.dict [("status", Json.str "DOWN")]) ∧
    (check_actuator_health wChecker envJson503).error_message
      = some "HTTP 503: status-DOWN" ∧
    (check_actuator_info wChecker envJson503).error_message
      = some "HTTP 503: status-DOWN" ∧
    (check_custom_api wChecker "/api/b" "GET" [] none 200
        envJson503).error_message = some "Expected 200, got 503" := by
  refine ⟨rfl, by decide, rfl, ?_, ?_, ?_⟩
  · exact (error_message_setting_amended wChecker envJson503 envJson503
      envJson503 respJson503 respJson503 respJson503
      (Json.dict [("status", Json.str "DOWN")])
      (Json.dict [("status", Json.str "DOWN")]) "/api/b" "GET" [] none
      200).1 rfl (by decide) rfl
  · exact (error_message_setting_amended wChecker envJson503 envJson503
      envJson503 respJson503 respJson503 respJson503
      (Json.dict [("status", Json.str "DOWN")])
      (Json.dict [("status", Json.str "DOWN")]) "/api/b" "GET" [] none
      200).2.1 rfl (by decide) rfl
  · exact (error_message_setting_amended wChecker envJson503 envJson503
      envJson503 respJson503 respJson503 respJson503
      (Json.dict [("status", Json.str "DOWN")])
      (Json.dict [("status", Json.str "DOWN")]) "/api/b" "GET" [] none
      200).2.2 rfl (by decide)

/-- Counterexample for C8: with caller-specified expected status 0 and a
transport failure, the probe has `success = false` although
`status_code == expected_status` holds (both are the sentinel 0). -/
theorem succeeded_iff_status_cex :
    ¬ ((check_custom_api wChecker "/api/x" "GET" [] none 0
          envTransportFail).success
        = ((check_custom_api wChecker "/api/x" "GET" [] none 0
          envTransportFail).status_code == 0)) := by
  decide

/-- C8 amended: `success = (status_code == expected_status)` holds for every
received response, and on the transport-failure path whenever the expected
status is not the sentinel 0; the fixed-path probes (expected status 200)
satisfy it unconditionally. -/
theorem succeeded_iff_status_amended (c : SpringActuatorChecker)
    (endpoint method : String) (headers : List (String × String))
    (json_data : Option Json) (expected_status : Nat) (env : HttpOutcome)
    (r : HttpResponse) :
    (env.result = .ok r →
      (check_custom_api c endpoint method headers json_data expected_status
          env).success
        = ((check_custom_api c endpoint method headers json_data
            expected_status env).status_code == expected_status)) ∧
    (expected_status ≠ 0 →
      (check_custom_api c endpoint method headers json_data expected_status
          env).success
        = ((check_custom_api c endpoint method headers json_data
            expected_status env).status_code == expected_status)) ∧
    ((check_actuator_health c env).success
      = ((check_actuator_health c env).status_code == 200)) ∧
    ((check_actuator_info c env).success
      = ((check_actuator_info c env).status_code == 200)) := by
  refine ⟨fun h => ?_, fun hne => ?_, ?_, ?_⟩
  · simp [check_custom_api, h]
  · cases hr : env.result with
    | error e =>
        cases expected_status with
        | zero => exact absurd rfl hne
        | succ n => simp [check_custom_api, hr]
    | ok resp => simp [check_custom_api, hr]
  · cases hr : env.result with
    | error e => simp [check_actuator_health, hr]
    | ok resp =>
        cases hs : resp.status_code == 200 with
        | true =>
            cases hj : resp.jsonBody with
            | ok j => simp [check_actuator_health, hr, hs, hj]
            | error e => simp [check_actuator_health, hr, hs, hj]
        | false => simp [check_actuator_health, hr, hs]
  · cases hr : env.result with
    | error e => simp [check_actuator_info, hr]
    | ok resp =>
        cases hs : resp.status_code == 200 with
        | true =>
            cases hj : resp.jsonBody with
            | ok j => simp [check_actuator_info, hr, hs, hj]
            | error e => simp [check_actuator_info, hr, hs, hj]
        | false => simp [check_actuator_info, hr, hs]

/-- Witness for C8 amended: a received 201 against expected 201, and a
transport failure against a nonzero expected status. -/
theorem succeeded_iff_status_amended_witness :
    envNum201.result = .ok respNum201 ∧ (201 : Nat) ≠ 0 ∧
    (check_custom_api wChecker "/api/users" "POST" [] none 201
        envNum201).success
      = ((check_custom_api wChecker "/api/users" "POST" [] none 201
        envNum201).status_code == 201) ∧
    (check_custom_api wChecker "/api/users" "POST" [] none 201
        envTransportFail).success
      = ((check_custom_api wChecker "/api/users" "POST" [] none 201
        envTransportFail).status_code == 201) := by
  refine ⟨rfl, by decide, ?_, ?_⟩
  · exact (succeeded_iff_status_amended wChecker "/api/users" "POST" [] none
      201 envNum201 respNum201).1 rfl
  · exact (succeeded_iff_status_amended wChecker "/api/users" "POST" [] none
      201 envTransportFail respNum201).2.1 (by decide)

/-- C2: the claim says the contract validator always returns a report and
never raises; the code contradicts it.  At this concrete input the probe
succeeds (HTTP 200) but the body is not JSON, so `response_body` is `None`,
and the membership test `key not in response_body` of the schema loop raises
a TypeError instead of returning a report. -/
theorem contract_validator_raises_on_non_json_success :
    (check_custom_api wChecker "/api/html-endpoint" "GET" [] none 200
        envHtml200).success = true ∧
    (check_custom_api wChecker "/api/html-endpoint" "GET" [] none 200
        envHtml200).response_body = none ∧
    validate_request_response_contract wChecker "/api/html-endpoint" "GET"
        none (some [("status", "str")]) [] envHtml200
      = .error "TypeError-NoneType-not-iterable" :=
  ⟨rfl, rfl, rfl⟩

/-- C5: when the initial probe of the contract validator does not succeed,
the returned report has `contract_valid = false` and `errors` equal to the
single string "API call failed: " followed by the probe error message, and
the schema is never inspected (the result is the same for every schema
argument). -/
theorem contract_short_circuit_on_probe_failure (c : SpringActuatorChecker)
    (endpoint method : String) (request_data : Option Json)
    (expected_response_schema : Option (List (String × String)))
    (headers : List (String × String)) (env : HttpOutcome) (msg : String)
    (h1 : (check_custom_api c endpoint method headers request_data 200
      env).success = false)
    (h2 : (check_custom_api c endpoint method headers request_data 200
      env).error_message = some msg) :
    validate_request_response_contract c endpoint method request_data
        expected_response_schema headers env
      = .ok { endpoint := endpoint, method := method, contract_valid := false,
              request_validation := [], response_validation := [],
              errors := ["API call failed: " ++ msg] } := by
  simp [validate_request_response_contract, h1, h2, fstringOpt]

/-- Witness for C5: a transport failure short-circuits the validator even
when a non-empty schema was supplied. -/
theorem contract_short_circuit_on_probe_failure_witness :
    (check_custom_api wChecker "/api/x" "GET" [] none 200
        envTransportFail).success = false ∧
    (check_custom_api wChecker "/api/x" "GET" [] none 200
        envTransportFail).error_message = some "Connection refused" ∧
    validate_request_response_contract wChecker "/api/x" "GET" none
        (some [("status", "str")]) [] envTransportFail
      = .ok { endpoint := "/api/x", method := "GET", contract_valid := false,
              request_validation := [], response_validation := [],
              errors := ["API call failed: Connection refused"] } :=
  ⟨rfl, rfl,
    contract_short_circuit_on_probe_failure wChecker "/api/x" "GET" none
      (some [("status", "str")]) [] envTransportFail "Connection refused"
      rfl rfl⟩

end SpringChecker
